import Mathlib

/-!
Verification of the Cronbach-Alpha repository (src/cronbach/cronbach.py)
against its natural-language specification.

Embedding conventions:
* A pandas DataFrame of item scores is a list of named-by-position columns;
  each column carries the values (rows) and a flag recording whether its
  dtype is numeric.  Cells are rationals: the float arithmetic of the source
  is idealised as exact arithmetic (the one caveat, division by zero, is
  noted where it matters).  Tables carry no missing values; the source only
  warns about them and the handle_missing transforms are the identity on
  NaN-free data, so the parameter is dropped.
* A Python function that can raise returns `Except Err A`; the two exception
  classes the source can raise are `TypeError` and `ValueError`.
* External statistics primitives that are not code of this repository
  (scipy.stats.norm.ppf, the pandas skew/kurtosis conventions) enter as a
  `StatLib` parameter; every theorem is universally quantified over it.
* An undefined correlation (a NaN produced by a zero divisor in pandas
  Series.corr / DataFrame.corr) is represented as `none` of `Option ℝ`.
* Logging calls (warnings in validate_data, the logging in the final
  `except` block, which only logs and re-raises) have no effect on the
  returned value and are omitted.
-/

namespace Cronbach

/-- The exception classes the source can raise: `TypeError` and `ValueError`
(lines 40-53 of cronbach.py and the subscripting of a dataclass), and
`ZeroDivisionError` (the line-72 division when its operands are plain Python
scalars and the denominator is zero). -/
inductive Err where
  | typeError (msg : String)
  | valueError (msg : String)
  | zeroDivisionError (msg : String)
deriving DecidableEq

/-- One DataFrame column: its dtype flag and its values (rows). -/
structure Col where
  numeric : Bool
  vals : List ℚ
deriving DecidableEq

/-- A DataFrame: an ordered list of columns (items). -/
structure DF where
  cols : List Col
deriving DecidableEq

/-- `df.shape[0]`: the number of rows.  For the tables reached here (built
from equal-length columns, or by dropping one column of such a table) this is
the length of the first column. -/
def DF.nRows (df : DF) : ℕ :=
  match df.cols with
  | [] => 0
  | c :: _ => c.vals.length

/-- `df.shape[1]`: the number of columns (items). -/
def DF.nCols (df : DF) : ℕ := df.cols.length

/-- All columns have numeric dtype (`np.issubdtype(dtype, np.number)`). -/
def DF.allNumeric (df : DF) : Bool := df.cols.all (·.numeric)

/-- The table is rectangular: every column has `df.nRows` rows.  pandas
guarantees this for every real DataFrame; the embedding states it where a
proof needs it. -/
def DF.isRect (df : DF) : Bool := df.cols.all (fun c => c.vals.length == df.nRows)

/-- `validate_data` (cronbach.py lines 27-61).  The isinstance check cannot
fail in a typed embedding; the missing-value, zero-variance and
negative-value checks only log warnings and are omitted.  The two shape
checks raise `ValueError`, the dtype check raises `TypeError`, in source
order. -/
def validate_data (df : DF) (minRows minCols : ℕ) : Except Err Unit :=
  if df.nRows < minRows then
    .error (.valueError "Data must have at least 2 rows (participants)")
  else if df.nCols < minCols then
    .error (.valueError "Data must have at least 2 columns (items)")
  else if ¬ df.allNumeric then
    .error (.typeError "All columns must contain numeric data")
  else
    .ok ()

/-- The mean of a pandas Series (`Series.mean`). -/
def listMean (xs : List ℚ) : ℚ := xs.sum / xs.length

/-- Sample variance with denominator n-1 (`Series.var(ddof=1)`,
`df.var(axis=0, ddof=1)` applied per column). -/
def sampleVar (xs : List ℚ) : ℚ :=
  (xs.map (fun x => (x - listMean xs) ^ 2)).sum / ((xs.length : ℚ) - 1)

/-- Sample covariance with denominator n-1 of two equal-length series
(the covariance pandas correlation routines divide by the two standard
deviations). -/
def sampleCov (xs ys : List ℚ) : ℚ :=
  ((xs.zip ys).map (fun p => (p.1 - listMean xs) * (p.2 - listMean ys))).sum /
    ((xs.length : ℚ) - 1)

/-- The sum across items of row `r` (one entry of `df.sum(axis=1)`). -/
def DF.rowSum (df : DF) (r : ℕ) : ℚ := (df.cols.map (fun c => c.vals.getD r 0)).sum

/-- `total_scores = df.sum(axis=1)` (line 132). -/
def totalScores (df : DF) : List ℚ := (List.range df.nRows).map df.rowSum

/-- `item_variances.sum()` with `item_variances = df.var(axis=0, ddof=1)`
(lines 131, 136). -/
def sumItemVariances (df : DF) : ℚ := (df.cols.map (fun c => sampleVar c.vals)).sum

/-- `var_total = total_scores.var(ddof=1)` (line 133). -/
def varTotal (df : DF) : ℚ := sampleVar (totalScores df)

/-- The alpha value the source computes at line 136:
`alpha = (N / (N - 1)) * (1 - item_variances.sum() / var_total)`.
`N` is a Python int, so `N - 1` is signed: the embedding subtracts after
casting to ℚ. -/
def alphaValue (df : DF) : ℚ :=
  ((df.nCols : ℚ) / ((df.nCols : ℚ) - 1)) * (1 - sumItemVariances df / varTotal df)

/-- Modelled from the spec: the statistical primitives the source takes from
external libraries, not code of this repository.  `ppf` is the inverse normal
CDF `scipy.stats.norm.ppf`; `skew` and `kurt` are the pandas skewness and
kurtosis conventions, whose exact bias correction the spec leaves open
(spec section 9).  Every theorem below holds for all of them. -/
structure StatLib where
  ppf : ℝ → ℝ
  skew : List ℚ → ℝ
  kurt : List ℚ → ℝ

/-- Modelled from the spec: `np.arctanh`, the real inverse hyperbolic
tangent `(1/2) log ((1+x)/(1-x))`. -/
noncomputable def artanh (x : ℝ) : ℝ := (1 / 2) * Real.log ((1 + x) / (1 - x))

/-- `calculate_confidence_interval` (lines 63-78).  The source performs no
parameter checks.  Its one fallible operation is the division of line 72,
whose behaviour depends on the runtime type of `alpha`: with a plain Python
scalar `alpha` the numerator `2 * (1 - alpha**2)` is a Python scalar and a
zero denominator `(n_items - 1) * (n_subjects - 2)` raises
`ZeroDivisionError`; with a numpy float64 `alpha` - as in the one internal
call, where alpha comes from pandas arithmetic - numpy only warns and
produces inf/nan, and the function always returns.  `npFloat` records that
type distinction.  Everything else (np.arctanh(±1), np.sqrt of a negative)
only warns.  `n_items` and `n_subjects` are Python ints: the subtractions
are signed, so they happen after the casts. -/
noncomputable def calculate_confidence_interval (lib : StatLib) (npFloat : Bool)
    (alpha : ℝ) (nItems nSubjects : ℕ) (confidence : ℝ) : Except Err (ℝ × ℝ) :=
  let z := artanh alpha
  match npFloat, ((nItems : ℤ) - 1) * ((nSubjects : ℤ) - 2) == 0 with
  | false, true => .error (.zeroDivisionError "float division by zero")
  | _, _ =>
    let se := Real.sqrt (2 * (1 - alpha ^ 2) / (((nItems : ℝ) - 1) * ((nSubjects : ℝ) - 2)))
    let zCrit := lib.ppf ((1 + confidence) / 2)
    .ok (Real.tanh (z - zCrit * se), Real.tanh (z + zCrit * se))

/-- Pearson correlation of two equal-length series, as the pandas routines
behind `Series.corr` and `DataFrame.corr` compute it: covariance divided by
the square root of the product of the variances, NaN (`none`) when that
divisor is zero. -/
noncomputable def pearsonCorr (xs ys : List ℚ) : Option ℝ :=
  if sampleVar xs * sampleVar ys = 0 then none
  else some ((sampleCov xs ys : ℝ) / Real.sqrt ((sampleVar xs : ℚ) * sampleVar ys))

/-- Pointwise difference of two aligned pandas Series
(`total_scores - df[col]`). -/
def seriesSub (xs ys : List ℚ) : List ℚ := (xs.zip ys).map (fun p => p.1 - p.2)

/-- `item_total_correlations` (lines 142-146):
`{col: df[col].corr(total_scores - df[col]) for col in df.columns}`. -/
noncomputable def itemTotalCorrelations (df : DF) : List (Option ℝ) :=
  df.cols.map (fun c => pearsonCorr c.vals (seriesSub (totalScores df) c.vals))

/-- `inter_item_corr = df.corr()` (line 158): the full pairwise Pearson
correlation matrix. -/
noncomputable def interItemCorrelations (df : DF) : List (List (Option ℝ)) :=
  df.cols.map (fun c1 => df.cols.map (fun c2 => pearsonCorr c1.vals c2.vals))

/-- One row of `calculate_item_statistics` (lines 80-90).  Skewness and
kurtosis come from the `StatLib` parameter (their pandas convention is
external library code the spec leaves open). -/
structure ItemStats where
  mean : ℚ
  std : ℝ
  skewness : ℝ
  kurtosis : ℝ
  min : ℚ
  max : ℚ

/-- `df.min()` for one column (0 on an empty column, unreachable here). -/
def listMin (xs : List ℚ) : ℚ :=
  match xs with
  | [] => 0
  | x :: rest => rest.foldl min x

/-- `df.max()` for one column (0 on an empty column, unreachable here). -/
def listMax (xs : List ℚ) : ℚ :=
  match xs with
  | [] => 0
  | x :: rest => rest.foldl max x

/-- `calculate_item_statistics` (lines 80-90). -/
noncomputable def calculate_item_statistics (lib : StatLib) (df : DF) : List ItemStats :=
  df.cols.map (fun c =>
    { mean := listMean c.vals
      std := Real.sqrt (sampleVar c.vals : ℚ)
      skewness := lib.skew c.vals
      kurtosis := lib.kurt c.vals
      min := listMin c.vals
      max := listMax c.vals })

/-- `scale_stats` (lines 161-167). -/
structure ScaleStats where
  mean : ℚ
  variance : ℚ
  std_dev : ℝ
  n_items : ℕ
  n_subjects : ℕ

/-- The result dataclass `CronbachResults` (lines 15-25).  It is a plain
dataclass: it defines no `__getitem__`, so subscripting a value of it raises
`TypeError` (see `subscriptAlpha`). -/
structure CronbachResults where
  alpha : ℚ
  item_total_correlations : List (Option ℝ)
  alpha_if_deleted : List ℚ
  confidence_interval : ℝ × ℝ
  std_error : ℝ
  item_statistics : List ItemStats
  inter_item_correlations : List (List (Option ℝ))
  scale_statistics : ScaleStats

/-- The subscript `results['alpha']` the recursive step performs at
line 150.  `CronbachResults` is a dataclass without `__getitem__`, so the
subscript raises `TypeError` whatever the result value is. -/
def subscriptAlpha (_ : CronbachResults) : Except Err ℚ :=
  .error (.typeError "CronbachResults object is not subscriptable")

mutual

/-- `cronbach_alpha` (lines 92-184).  Validation, then the alpha of
line 136, the confidence interval, the standard error, the item-total
correlations, then the alpha-if-deleted dict comprehension of lines 148-152
(each entry drops one column, recurses with the default confidence 0.95 and
subscripts the recursive result), and only then the remaining statistics and
the construction of the result.  The final `except` block (lines 182-184)
logs and re-raises, so it is the identity on the propagated exception. -/
noncomputable def cronbach_alpha (lib : StatLib) (confidence : ℚ) (df : DF) :
    Except Err CronbachResults :=
  match validate_data df 2 2 with
  | .error e => .error e
  | .ok _ =>
    let N := df.nCols
    let nSubjects := df.nRows
    let alpha := alphaValue df
    -- alpha here is a numpy float64 (item_variances.sum() / var_total),
    -- so the line-72 division cannot raise on this call: npFloat = true
    match calculate_confidence_interval lib true (alpha : ℝ) N nSubjects (confidence : ℝ) with
    | .error e => .error e
    | .ok ci =>
      let stdError := (ci.2 - ci.1) / (2 * lib.ppf ((1 + (confidence : ℝ)) / 2))
      let itc := itemTotalCorrelations df
      match alphaIfDeleted lib [] df.cols with
      | .error e => .error e
      | .ok aid =>
        .ok { alpha := alpha
              item_total_correlations := itc
              alpha_if_deleted := aid
              confidence_interval := ci
              std_error := stdError
              item_statistics := calculate_item_statistics lib df
              inter_item_correlations := interItemCorrelations df
              scale_statistics :=
                { mean := listMean (totalScores df)
                  variance := varTotal df
                  std_dev := Real.sqrt (varTotal df : ℚ)
                  n_items := N
                  n_subjects := nSubjects } }
termination_by (df.cols.length, df.cols.length + 1)
decreasing_by all_goals (simp [Prod.lex_def]; try omega)

/-- The dict comprehension of lines 149-151, iterating the columns in order:
`done` are the columns already processed, `c :: todo` the rest, and the
current table with column `c` dropped is `done ++ todo`.  The recursive call
passes only the reduced table, so confidence takes its default 0.95.  The
first exception of a comprehension entry propagates. -/
noncomputable def alphaIfDeleted (lib : StatLib) (done todo : List Col) :
    Except Err (List ℚ) :=
  match todo with
  | [] => .ok []
  | c :: rest =>
    match cronbach_alpha lib (95 / 100) ⟨done ++ rest⟩ with
    | .error e => .error e
    | .ok r =>
      match subscriptAlpha r with
      | .error e => .error e
      | .ok a =>
        match alphaIfDeleted lib (done ++ [c]) rest with
        | .error e => .error e
        | .ok rest' => .ok (a :: rest')
termination_by (done.length + todo.length, todo.length)
decreasing_by all_goals (simp [Prod.lex_def]; try omega)

end

/-- Whether a call returned (rather than raised). -/
def exceptIsOk {ε α : Type _} : Except ε α → Bool
  | .ok _ => true
  | .error _ => false

/-! ### Concrete tables used by witnesses and counterexamples -/

/-- A trivial instantiation of the external statistics primitives; the
behaviour the claims are about does not depend on it. -/
noncomputable def lib0 : StatLib := ⟨fun _ => 0, fun _ => 0, fun _ => 0⟩

/-- The documented example table of the spec:
`{Item1:[4,3,5,2], Item2:[3,4,2,5], Item3:[5,4,3,4]}`. -/
def exDF : DF :=
  ⟨[⟨true, [4, 3, 5, 2]⟩, ⟨true, [3, 4, 2, 5]⟩, ⟨true, [5, 4, 3, 4]⟩]⟩

/-- A valid two-item table: deleting either item leaves one column. -/
def twoItemDF : DF := ⟨[⟨true, [1, 2, 3]⟩, ⟨true, [2, 4, 1]⟩]⟩

/-- A valid table whose per-respondent totals are all equal (rows sum to 3)
although the individual items vary. -/
def degenerateDF : DF := ⟨[⟨true, [1, 2]⟩, ⟨true, [2, 1]⟩]⟩

/-- A table with one row (and two numeric columns). -/
def oneRowDF : DF := ⟨[⟨true, [4]⟩, ⟨true, [3]⟩]⟩

/-- A table with one item (and three rows). -/
def oneItemDF : DF := ⟨[⟨true, [1, 2, 3]⟩]⟩

/-- A table of the right shape with a non-numeric second column. -/
def nonNumericDF : DF := ⟨[⟨true, [1, 2]⟩, ⟨false, [0, 0]⟩]⟩

/-- A valid table whose first column is constant (zero variance). -/
def constColDF : DF := ⟨[⟨true, [1, 1]⟩, ⟨true, [1, 2]⟩]⟩

/-! ### Unfolding lemmas for the recursion -/

theorem validate_ok_iff (df : DF) :
    validate_data df 2 2 = .ok () ↔
      2 ≤ df.nRows ∧ 2 ≤ df.nCols ∧ df.allNumeric = true := by
  unfold validate_data
  split_ifs with h1 h2 h3 <;> simp_all <;> omega

theorem validate_error_is_valueError (df : DF) (e : Err)
    (hnum : df.allNumeric = true) (h : validate_data df 2 2 = .error e) :
    ∃ m, e = .valueError m := by
  unfold validate_data at h
  split_ifs at h with h1 h2 h3
  all_goals first
    | exact ⟨_, (Except.error.inj h).symm⟩
    | simp_all

theorem cronbach_error_of_validate (lib : StatLib) (conf : ℚ) (df : DF) (e : Err)
    (h : validate_data df 2 2 = .error e) :
    cronbach_alpha lib conf df = .error e := by
  unfold cronbach_alpha
  rw [h]

theorem cronbach_error_of_aid (lib : StatLib) (conf : ℚ) (df : DF) (e : Err)
    (hv : validate_data df 2 2 = .ok ())
    (ha : alphaIfDeleted lib [] df.cols = .error e) :
    cronbach_alpha lib conf df = .error e := by
  unfold cronbach_alpha
  rw [hv]
  simp only [calculate_confidence_interval]
  rw [ha]

theorem aid_error_of_first (lib : StatLib) (done : List Col) (c : Col)
    (rest : List Col) (e : Err)
    (h : cronbach_alpha lib (95 / 100) ⟨done ++ rest⟩ = .error e) :
    alphaIfDeleted lib done (c :: rest) = .error e := by
  unfold alphaIfDeleted
  rw [h]

/-- Every table that passes validation makes `cronbach_alpha` raise a
`ValueError`: the alpha-if-deleted recursion over ever smaller tables
reaches a one-column table, whose validation fails, and the error
propagates through every pending comprehension (a sub-call that returned
would in any case be subscripted, a `TypeError` on the dataclass, so no
branch can produce a value). -/
theorem cronbach_alpha_raises_aux : ∀ (n : ℕ) (df : DF), df.cols.length ≤ n →
    ∀ (lib : StatLib) (conf : ℚ), validate_data df 2 2 = .ok () →
    ∃ m, cronbach_alpha lib conf df = .error (.valueError m) := by
  intro n
  induction n with
  | zero =>
    intro df hlen lib conf h
    have h2 := (validate_ok_iff df).mp h
    exact absurd h2.2.1 (by simp [DF.nCols]; omega)
  | succ n ih =>
    intro df hlen lib conf h
    have h2 := (validate_ok_iff df).mp h
    obtain ⟨c, rest, hc⟩ : ∃ c rest, df.cols = c :: rest := by
      rcases hcc : df.cols with _ | ⟨c, rest⟩
      · exact absurd h2.2.1 (by simp [DF.nCols, hcc])
      · exact ⟨c, rest, rfl⟩
    have hrest_num : DF.allNumeric ⟨rest⟩ = true := by
      have := h2.2.2
      simp only [DF.allNumeric, hc, List.all_cons, Bool.and_eq_true] at this ⊢
      exact this.2
    have hsub : ∃ m, cronbach_alpha lib (95 / 100) ⟨rest⟩ = .error (.valueError m) := by
      cases hv : validate_data ⟨rest⟩ 2 2 with
      | error e =>
        obtain ⟨m, hm⟩ := validate_error_is_valueError ⟨rest⟩ e hrest_num hv
        exact ⟨m, hm ▸ cronbach_error_of_validate lib (95 / 100) ⟨rest⟩ e hv⟩
      | ok u =>
        cases u
        have hr : (DF.mk rest).cols.length ≤ n := by
          have : df.cols.length = rest.length + 1 := by rw [hc]; rfl
          simp only [DF.mk.injEq]
          omega
        exact ih ⟨rest⟩ hr lib (95 / 100) hv
    obtain ⟨m, hm⟩ := hsub
    refine ⟨m, cronbach_error_of_aid lib conf df _ h ?_⟩
    rw [hc]
    exact aid_error_of_first lib [] c rest _ (by simpa using hm)

/-- The message of the column-count `ValueError` of `validate_data`. -/
def colsMsg : String := "Data must have at least 2 columns (items)"

/-- A one-item table with enough rows fails validation (and hence the whole
call) with the column-count `ValueError`. -/
theorem cronbach_one_col_eval (lib : StatLib) (conf : ℚ) (df : DF)
    (h1 : df.nCols = 1) (h2 : 2 ≤ df.nRows) :
    cronbach_alpha lib conf df = .error (.valueError colsMsg) := by
  apply cronbach_error_of_validate
  unfold validate_data
  rw [if_neg (by omega), if_pos (by omega)]
  rfl

/-- On a valid two-item table the alpha-if-deleted recursion drops the first
column, validates the remaining one-column table, and the column-count
`ValueError` aborts the whole call. -/
theorem cronbach_two_cols_eval (lib : StatLib) (conf : ℚ) (a b : Col)
    (h : validate_data ⟨[a, b]⟩ 2 2 = .ok ()) (hb : 2 ≤ b.vals.length) :
    cronbach_alpha lib conf ⟨[a, b]⟩ = .error (.valueError colsMsg) := by
  apply cronbach_error_of_aid lib conf _ _ h
  show alphaIfDeleted lib [] (a :: [b]) = _
  apply aid_error_of_first
  apply cronbach_one_col_eval
  · rfl
  · exact hb

/-- On a valid three-item table the recursion reaches the same column-count
`ValueError` one level deeper, and it propagates to the top. -/
theorem cronbach_three_cols_eval (lib : StatLib) (conf : ℚ) (a b c : Col)
    (h : validate_data ⟨[a, b, c]⟩ 2 2 = .ok ())
    (hbc : validate_data ⟨[b, c]⟩ 2 2 = .ok ()) (hc : 2 ≤ c.vals.length) :
    cronbach_alpha lib conf ⟨[a, b, c]⟩ = .error (.valueError colsMsg) := by
  apply cronbach_error_of_aid lib conf _ _ h
  show alphaIfDeleted lib [] (a :: [b, c]) = _
  apply aid_error_of_first
  exact cronbach_two_cols_eval lib (95 / 100) b c hbc hc

/-- C1: for every DataFrame that passes validation (at least 2 rows, at
least 2 numeric columns), `cronbach_alpha` raises an exception and never
returns a `CronbachResults` value: the alpha-if-deleted step would subscript
the recursive result (a `TypeError` on the plain dataclass), and the
recursion over ever smaller tables in any case reaches a one-column table
whose validation raises `ValueError`, which propagates and aborts the whole
call. -/
theorem C1_cronbach_alpha_always_raises (lib : StatLib) (conf : ℚ) (df : DF)
    (h : validate_data df 2 2 = .ok ()) :
    ∃ m, cronbach_alpha lib conf df = .error (.valueError m) :=
  cronbach_alpha_raises_aux df.cols.length df le_rfl lib conf h

/-- C1 witness: the documented three-item example table passes validation,
and the call on it raises. -/
theorem C1_witness :
    validate_data exDF 2 2 = .ok () ∧
      ∃ m, cronbach_alpha lib0 (95 / 100) exDF = .error (.valueError m) :=
  ⟨by rfl, C1_cronbach_alpha_always_raises lib0 (95 / 100) exDF (by rfl)⟩

/-- The message of the row-count `ValueError` of `validate_data`. -/
def rowsMsg : String := "Data must have at least 2 rows (participants)"

/-- The message of the dtype `TypeError` of `validate_data`. -/
def numMsg : String := "All columns must contain numeric data"

/-- C2: evaluation at the documented example table.  The spec says each
`alpha_if_deleted` entry equals the alpha of the table with that item
removed; the code instead aborts the whole call while building the mapping
(the recursive sub-call fails validation at one column and the `ValueError`
propagates; a sub-call that returned would be subscripted with a string key,
a `TypeError` on the dataclass), so no `alpha_if_deleted` mapping is ever
produced. -/
theorem C2_example_table_aborts :
    cronbach_alpha lib0 (95 / 100) exDF = .error (.valueError colsMsg) :=
  cronbach_three_cols_eval lib0 (95 / 100) _ _ _ (by rfl) (by rfl) (by decide)

/-- C4: evaluation at a valid two-item table.  Removing either item leaves
one column, so the spec says only that entry of the mapping is missing and
the analysis still completes; the code instead propagates the sub-call
exception and the whole call aborts with the column-count `ValueError`. -/
theorem C4_two_item_table_aborts :
    cronbach_alpha lib0 (95 / 100) twoItemDF = .error (.valueError colsMsg) :=
  cronbach_two_cols_eval lib0 (95 / 100) _ _ (by rfl) (by decide)

/-- C5 counterexample: the code has no `ShapeError` and no
`InsufficientItemsError` class - its only exception classes are `ValueError`
and `TypeError`.  A one-row table fails with a `ValueError` (not a distinct
`ShapeError`), and the alpha computation on a one-item table fails with the
very same `ValueError` class, the column-count message of the shared shape
check - precisely "another error type" than the distinct
`InsufficientItemsError` the claim requires. -/
theorem C5_counterexample :
    validate_data oneRowDF 2 2 = .error (.valueError rowsMsg) ∧
      cronbach_alpha lib0 (95 / 100) oneItemDF = .error (.valueError colsMsg) :=
  ⟨by rfl, cronbach_one_col_eval lib0 (95 / 100) oneItemDF (by rfl) (by decide)⟩

/-- C5 amended: too few rows (in particular one row) raises the generic
`ValueError` with the row-count message, a non-numeric column (once the
shape checks pass) raises `TypeError`, and an alpha computation on a
one-item table raises the same generic `ValueError` class with the
column-count message - the code has no separate `ShapeError` or
`InsufficientItemsError` classes. -/
theorem C5_amended_error_classes (lib : StatLib) (conf : ℚ) (d1 d2 d3 : DF)
    (h1 : d1.nRows < 2)
    (h2r : 2 ≤ d2.nRows) (h2c : 2 ≤ d2.nCols) (h2n : d2.allNumeric = false)
    (h3c : d3.nCols = 1) (h3r : 2 ≤ d3.nRows) :
    validate_data d1 2 2 = .error (.valueError rowsMsg) ∧
      validate_data d2 2 2 = .error (.typeError numMsg) ∧
      cronbach_alpha lib conf d3 = .error (.valueError colsMsg) := by
  refine ⟨?_, ?_, cronbach_one_col_eval lib conf d3 h3c h3r⟩
  · unfold validate_data
    rw [if_pos h1]
    rfl
  · unfold validate_data
    rw [if_neg (by omega), if_neg (by omega), if_pos (by simp [h2n])]
    rfl

/-- C5 witness: the three scenarios at concrete tables. -/
theorem C5_witness :
    validate_data oneRowDF 2 2 = .error (.valueError rowsMsg) ∧
      validate_data nonNumericDF 2 2 = .error (.typeError numMsg) ∧
      cronbach_alpha lib0 (95 / 100) oneItemDF = .error (.valueError colsMsg) := by
  have h := C5_amended_error_classes lib0 (95 / 100) oneRowDF nonNumericDF oneItemDF
    (by decide) (by decide) (by decide) (by decide) (by decide) (by decide)
  exact h

/-- C6 counterexample: a valid table whose per-respondent totals are all
identical (zero total-score variance).  The claim says the computation fails
with `DegenerateDataError`; the code has no such class and no zero-variance
check at all - the division by zero is performed (floats produce an
infinity, not an exception) and the call then fails exactly like every other
valid table, with the column-count `ValueError` propagated out of the
alpha-if-deleted recursion. -/
theorem C6_counterexample :
    validate_data degenerateDF 2 2 = .ok () ∧ varTotal degenerateDF = 0 ∧
      cronbach_alpha lib0 (95 / 100) degenerateDF = .error (.valueError colsMsg) :=
  ⟨by rfl,
    by norm_num [varTotal, sampleVar, totalScores, listMean, DF.rowSum, DF.nRows,
      degenerateDF, List.range_succ],
    cronbach_two_cols_eval lib0 (95 / 100) _ _ (by rfl) (by decide)⟩

/-- C6 amended: a validated table with zero total-score variance makes the
call fail, but with the `ValueError` propagated from the alpha-if-deleted
recursion - not with a `DegenerateDataError`, which does not exist anywhere
in the code. -/
theorem C6_amended_degenerate_raises_valueError (lib : StatLib) (conf : ℚ)
    (df : DF) (h : validate_data df 2 2 = .ok ()) (hvt : varTotal df = 0) :
    ∃ m, cronbach_alpha lib conf df = .error (.valueError m) :=
  cronbach_alpha_raises_aux df.cols.length df le_rfl lib conf h

/-- C6 witness: the degenerate table above. -/
theorem C6_witness :
    validate_data degenerateDF 2 2 = .ok () ∧ varTotal degenerateDF = 0 ∧
      ∃ m, cronbach_alpha lib0 (95 / 100) degenerateDF = .error (.valueError m) :=
  ⟨by rfl,
    by norm_num [varTotal, sampleVar, totalScores, listMean, DF.rowSum, DF.nRows,
      degenerateDF, List.range_succ],
    C6_amended_degenerate_raises_valueError lib0 (95 / 100) degenerateDF
      (by rfl)
      (by norm_num [varTotal, sampleVar, totalScores, listMean, DF.rowSum, DF.nRows,
        degenerateDF, List.range_succ])⟩

/-! ### The spec-side alpha formula (claim C3) -/

/-- A list sum as a sum over row indices. -/
theorem list_map_sum_getD {α : Type _} (xs : List α) (f : α → ℚ) (d : α) :
    (xs.map f).sum = ∑ r in Finset.range xs.length, f (xs.getD r d) := by
  induction xs with
  | nil => simp
  | cons x t ih =>
    rw [List.map_cons, List.sum_cons, List.length_cons, Finset.sum_range_succ']
    simp [ih, add_comm]

theorem list_sum_getD (xs : List ℚ) :
    xs.sum = ∑ r in Finset.range xs.length, xs.getD r 0 := by
  simpa using list_map_sum_getD xs id 0

/-- Modelled from the spec (compute_alpha): the sample variance with
denominator n-1, written as the spec reads it, indexwise. -/
def specVariance (xs : List ℚ) : ℚ :=
  (∑ r in Finset.range xs.length,
      (xs.getD r 0 - (∑ i in Finset.range xs.length, xs.getD i 0) / xs.length) ^ 2) /
    ((xs.length : ℚ) - 1)

/-- Modelled from the spec: `totalScores[r]` = sum across items for row r. -/
def specTotalScore (df : DF) (r : ℕ) : ℚ :=
  ∑ c in Finset.range df.nCols, (df.cols.getD c ⟨true, []⟩).vals.getD r 0

/-- Modelled from the spec: alpha = (N / (N − 1)) × (1 − Σ itemVariances /
varTotal), itemVariances the per-column sample variances and varTotal the
sample variance of the per-respondent totals. -/
def specAlpha (df : DF) : ℚ :=
  ((df.nCols : ℚ) / ((df.nCols : ℚ) - 1)) *
    (1 -
      (∑ c in Finset.range df.nCols, specVariance (df.cols.getD c ⟨true, []⟩).vals) /
        specVariance ((List.range df.nRows).map (specTotalScore df)))

theorem sampleVar_eq_specVariance (xs : List ℚ) : sampleVar xs = specVariance xs := by
  unfold sampleVar specVariance listMean
  rw [list_map_sum_getD _ _ (0 : ℚ), list_sum_getD]

theorem rowSum_eq_specTotalScore (df : DF) (r : ℕ) :
    df.rowSum r = specTotalScore df r :=
  list_map_sum_getD df.cols (fun c => c.vals.getD r 0) ⟨true, []⟩

theorem totalScores_eq_spec (df : DF) :
    totalScores df = (List.range df.nRows).map (specTotalScore df) := by
  unfold totalScores
  congr 1
  funext r
  exact rowSum_eq_specTotalScore df r

theorem sumItemVariances_eq_spec (df : DF) :
    sumItemVariances df =
      ∑ c in Finset.range df.nCols, specVariance (df.cols.getD c ⟨true, []⟩).vals := by
  unfold sumItemVariances DF.nCols
  rw [list_map_sum_getD df.cols (fun c => sampleVar c.vals) ⟨true, []⟩]
  exact Finset.sum_congr rfl (fun c _ => by rw [sampleVar_eq_specVariance])

/-- C3 counterexample: the documented example table is valid and has nonzero
total-score variance, yet the call returns no alpha at all - it raises in
the alpha-if-deleted step, so there is no "returned alpha" to compare with
the formula. -/
theorem C3_counterexample :
    validate_data exDF 2 2 = .ok () ∧ ¬ varTotal exDF = 0 ∧
      exceptIsOk (cronbach_alpha lib0 (95 / 100) exDF) = false := by
  refine ⟨by rfl, ?_, ?_⟩
  · norm_num [varTotal, sampleVar, totalScores, listMean, DF.rowSum, DF.nRows,
      exDF, List.range_succ]
  · have h : cronbach_alpha lib0 (95 / 100) exDF = .error (.valueError colsMsg) :=
      cronbach_three_cols_eval lib0 (95 / 100) _ _ _ (by rfl) (by rfl) (by decide)
    rw [h]
    rfl

/-- C3 amended: the alpha value the code computes at line 136 (the value
that would be returned as the alpha field) equals the spec formula
(N / (N − 1)) × (1 − Σ itemVariances / varTotal) with sample variances of
denominator n−1 and per-respondent row sums; the call never actually returns
it because the alpha-if-deleted step aborts every call. -/
theorem C3_amended_alpha_matches_formula (df : DF) : alphaValue df = specAlpha df := by
  unfold alphaValue specAlpha varTotal
  rw [sumItemVariances_eq_spec, sampleVar_eq_specVariance, totalScores_eq_spec]

/-! ### Alpha is at most one (claim C8) -/

theorem range_map_sum (n : ℕ) (f : ℕ → ℚ) :
    ((List.range n).map f).sum = ∑ r in Finset.range n, f r := by
  induction n with
  | zero => simp
  | succ k ih =>
    rw [List.range_succ, List.map_append, List.sum_append, Finset.sum_range_succ, ih]
    simp

theorem range_map_getD (n : ℕ) (f : ℕ → ℚ) (r : ℕ) (h : r < n) :
    ((List.range n).map f).getD r 0 = f r := by
  rw [List.getD_eq_getElem _ _ (by simpa using h), List.getElem_map, List.getElem_range]

theorem isRect_vals_length (df : DF) (h : df.isRect = true) (c : ℕ)
    (hc : c < df.nCols) :
    (df.cols.getD c ⟨true, []⟩).vals.length = df.nRows := by
  simp only [DF.isRect, List.all_eq_true, beq_iff_eq] at h
  exact h _ (List.getD_eq_getElem df.cols _ hc ▸ df.cols.getElem_mem _)

theorem totalScores_length (df : DF) : (totalScores df).length = df.nRows := by
  simp [totalScores]

theorem totalScores_getD (df : DF) (r : ℕ) (h : r < df.nRows) :
    (totalScores df).getD r 0 =
      ∑ c in Finset.range df.nCols, (df.cols.getD c ⟨true, []⟩).vals.getD r 0 := by
  unfold totalScores
  rw [range_map_getD _ _ _ h, rowSum_eq_specTotalScore]
  rfl

theorem listMean_totalScores (df : DF) (hrect : df.isRect = true)
    (hn : df.nRows ≠ 0) :
    listMean (totalScores df) =
      ∑ c in Finset.range df.nCols, listMean (df.cols.getD c ⟨true, []⟩).vals := by
  unfold listMean
  rw [totalScores_length]
  unfold totalScores
  rw [range_map_sum]
  have hrow : ∀ r ∈ Finset.range df.nRows,
      df.rowSum r =
        ∑ c in Finset.range df.nCols, (df.cols.getD c ⟨true, []⟩).vals.getD r 0 :=
    fun r _ => rowSum_eq_specTotalScore df r
  rw [Finset.sum_congr rfl hrow, Finset.sum_comm, Finset.sum_div]
  refine Finset.sum_congr rfl (fun c hc => ?_)
  have hlen := isRect_vals_length df hrect c (Finset.mem_range.mp hc)
  rw [list_sum_getD, hlen]

theorem varTotal_eq_num_div (df : DF) :
    varTotal df =
      (∑ r in Finset.range df.nRows,
        ((totalScores df).getD r 0 - listMean (totalScores df)) ^ 2) /
      ((df.nRows : ℚ) - 1) := by
  unfold varTotal sampleVar
  rw [list_map_sum_getD _ _ (0 : ℚ), totalScores_length]

theorem sumItemVariances_eq_num_div (df : DF) (hrect : df.isRect = true) :
    sumItemVariances df =
      (∑ c in Finset.range df.nCols, ∑ r in Finset.range df.nRows,
        ((df.cols.getD c ⟨true, []⟩).vals.getD r 0 -
          listMean (df.cols.getD c ⟨true, []⟩).vals) ^ 2) /
      ((df.nRows : ℚ) - 1) := by
  unfold sumItemVariances DF.nCols
  rw [list_map_sum_getD df.cols (fun c => sampleVar c.vals) ⟨true, []⟩,
    Finset.sum_div]
  refine Finset.sum_congr rfl (fun c hc => ?_)
  have hlen := isRect_vals_length df hrect c (by simpa [DF.nCols] using hc)
  unfold sampleVar
  rw [list_map_sum_getD _ _ (0 : ℚ), hlen]

/-- The Cauchy-Schwarz step: the total-score variance numerator is at most
N times the summed item-variance numerator. -/
theorem total_num_le_card_mul_item_num (df : DF) (hrect : df.isRect = true) :
    (∑ r in Finset.range df.nRows,
        ((totalScores df).getD r 0 - listMean (totalScores df)) ^ 2) ≤
      (df.nCols : ℚ) *
        ∑ c in Finset.range df.nCols, ∑ r in Finset.range df.nRows,
          ((df.cols.getD c ⟨true, []⟩).vals.getD r 0 -
            listMean (df.cols.getD c ⟨true, []⟩).vals) ^ 2 := by
  by_cases hn : df.nRows = 0
  · simp [hn]
  calc
    (∑ r in Finset.range df.nRows,
        ((totalScores df).getD r 0 - listMean (totalScores df)) ^ 2)
      = ∑ r in Finset.range df.nRows,
          (∑ c in Finset.range df.nCols,
            ((df.cols.getD c ⟨true, []⟩).vals.getD r 0 -
              listMean (df.cols.getD c ⟨true, []⟩).vals)) ^ 2 := by
        refine Finset.sum_congr rfl (fun r hr => ?_)
        rw [totalScores_getD df r (Finset.mem_range.mp hr),
          listMean_totalScores df hrect hn, ← Finset.sum_sub_distrib]
    _ ≤ ∑ r in Finset.range df.nRows,
          (df.nCols : ℚ) *
            ∑ c in Finset.range df.nCols,
              ((df.cols.getD c ⟨true, []⟩).vals.getD r 0 -
                listMean (df.cols.getD c ⟨true, []⟩).vals) ^ 2 := by
        refine Finset.sum_le_sum (fun r _ => ?_)
        have h := sq_sum_le_card_mul_sum_sq
          (s := Finset.range df.nCols)
          (f := fun c => (df.cols.getD c ⟨true, []⟩).vals.getD r 0 -
            listMean (df.cols.getD c ⟨true, []⟩).vals)
        simpa using h
    _ = (df.nCols : ℚ) *
          ∑ c in Finset.range df.nCols, ∑ r in Finset.range df.nRows,
            ((df.cols.getD c ⟨true, []⟩).vals.getD r 0 -
              listMean (df.cols.getD c ⟨true, []⟩).vals) ^ 2 := by
        rw [← Finset.mul_sum, Finset.sum_comm]

theorem varTotal_nonneg_of_rows (df : DF) (hn : 1 ≤ df.nRows) : 0 ≤ varTotal df := by
  rw [varTotal_eq_num_div]
  refine div_nonneg (Finset.sum_nonneg (fun r _ => sq_nonneg _)) ?_
  have : (1 : ℚ) ≤ (df.nRows : ℚ) := by exact_mod_cast hn
  linarith

/-- C8: for every valid rectangular table with nonzero total-score variance,
the alpha the code computes at line 136 is at most 1.  (The table being
valid gives at least 2 rows and 2 columns; rectangularity is what pandas
guarantees for every DataFrame.) -/
theorem C8_computed_alpha_le_one (df : DF) (hrect : df.isRect = true)
    (hval : validate_data df 2 2 = .ok ()) (hvt : varTotal df ≠ 0) :
    alphaValue df ≤ 1 := by
  obtain ⟨hr, hc, -⟩ := (validate_ok_iff df).mp hval
  set N : ℚ := (df.nCols : ℚ) with hN
  have hN2 : (2 : ℚ) ≤ N := by rw [hN]; exact_mod_cast hc
  have hn1 : (1 : ℚ) ≤ (df.nRows : ℚ) - 1 := by
    have : (2 : ℚ) ≤ (df.nRows : ℚ) := by exact_mod_cast hr
    linarith
  have hVpos : 0 < varTotal df :=
    lt_of_le_of_ne (varTotal_nonneg_of_rows df (by omega)) (Ne.symm hvt)
  have hkey : varTotal df ≤ N * sumItemVariances df := by
    rw [varTotal_eq_num_div, sumItemVariances_eq_num_div df hrect, ← mul_div_assoc]
    have hnum := total_num_le_card_mul_item_num df hrect
    have hd : (0 : ℚ) < (df.nRows : ℚ) - 1 := by linarith
    gcongr
  have hSV : 1 / N ≤ sumItemVariances df / varTotal df := by
    rw [div_le_div_iff (by linarith) hVpos]
    calc 1 * varTotal df = varTotal df := one_mul _
    _ ≤ N * sumItemVariances df := hkey
    _ = sumItemVariances df * N := mul_comm _ _
  have hfac : 0 ≤ N / (N - 1) := by apply div_nonneg <;> linarith
  calc alphaValue df
      = N / (N - 1) * (1 - sumItemVariances df / varTotal df) := rfl
    _ ≤ N / (N - 1) * (1 - 1 / N) :=
        mul_le_mul_of_nonneg_left (by linarith) hfac
    _ = 1 := by
        have h1 : N ≠ 0 := by linarith
        have h2 : N - 1 ≠ 0 := by linarith
        field_simp

/-- C8 witness: the documented example table. -/
theorem C8_witness :
    DF.isRect exDF = true ∧ validate_data exDF 2 2 = .ok () ∧
      ¬ varTotal exDF = 0 ∧ alphaValue exDF ≤ 1 := by
  have hvt : varTotal exDF ≠ 0 := by
    norm_num [varTotal, sampleVar, totalScores, listMean, DF.rowSum, DF.nRows,
      exDF, List.range_succ]
  exact ⟨by rfl, by rfl, hvt, C8_computed_alpha_le_one exDF (by rfl) (by rfl) hvt⟩

/-! ### Item-total correlations (claim C9) and the correlation matrix (C10) -/

theorem erase_map_sum {α : Type _} (l : List α) (g : α → ℚ) (d : α) :
    ∀ i, i < l.length →
      ((l.eraseIdx i).map g).sum = (l.map g).sum - g (l.getD i d) := by
  induction l with
  | nil => intro i hi; simp at hi
  | cons x t ih =>
    intro i hi
    cases i with
    | zero => simp [List.eraseIdx]
    | succ j =>
      have hj : j < t.length := by simpa using hi
      simp [List.eraseIdx, ih j hj]
      ring

theorem totalScores_getD_rowSum (df : DF) (r : ℕ) (h : r < df.nRows) :
    (totalScores df).getD r 0 = df.rowSum r := by
  unfold totalScores
  rw [range_map_getD _ _ _ h]

/-- Modelled from the spec: the per-row sum of all the other items' columns
(the total minus item `i`). -/
def specOtherSums (df : DF) (i : ℕ) : List ℚ :=
  (List.range df.nRows).map
    (fun r => ((df.cols.eraseIdx i).map (fun c => c.vals.getD r 0)).sum)

theorem seriesSub_totals (df : DF) (i : ℕ) (hrect : df.isRect = true)
    (hi : i < df.nCols) :
    seriesSub (totalScores df) (df.cols.getD i ⟨true, []⟩).vals =
      specOtherSums df i := by
  have hleni := isRect_vals_length df hrect i hi
  apply List.ext_getElem
  · have hleni' : (df.cols[i]?.getD ⟨true, []⟩).vals.length = df.nRows := by
      rw [← List.getD_eq_getElem?_getD]
      exact hleni
    simp [seriesSub, specOtherSums, totalScores, hleni']
  · intro r h1 h2
    have hr : r < df.nRows := by
      simpa [specOtherSums] using h2
    have hrt : r < (totalScores df).length := by rw [totalScores_length]; exact hr
    have hrc : r < (df.cols.getD i ⟨true, []⟩).vals.length := by rw [hleni]; exact hr
    simp only [seriesSub, specOtherSums, List.getElem_map, List.getElem_zip,
      List.getElem_range]
    rw [← List.getD_eq_getElem (totalScores df) 0 hrt,
      ← List.getD_eq_getElem _ 0 hrc,
      totalScores_getD_rowSum df r hr,
      erase_map_sum df.cols (fun c => c.vals.getD r 0) ⟨true, []⟩ i hi]
    rfl

theorem itemTotal_getD (df : DF) (i : ℕ) (hi : i < df.nCols) :
    (itemTotalCorrelations df).getD i none =
      pearsonCorr (df.cols.getD i ⟨true, []⟩).vals
        (seriesSub (totalScores df) (df.cols.getD i ⟨true, []⟩).vals) := by
  have hcols : i < df.cols.length := hi
  have hlen : i < (itemTotalCorrelations df).length := by
    simpa [itemTotalCorrelations] using hcols
  rw [List.getD_eq_getElem _ _ hlen, List.getD_eq_getElem _ _ hcols]
  simp [itemTotalCorrelations]

theorem pearsonCorr_none_of_left (xs ys : List ℚ) (h : sampleVar xs = 0) :
    pearsonCorr xs ys = none := by
  unfold pearsonCorr
  rw [if_pos (by rw [h, zero_mul])]

/-- C9: the `item_total_correlations` entry of item `i` is the Pearson
correlation between the column of `i` and the per-row sum of all the other
items (the total minus item `i`), and for a zero-variance item the entry is
NaN (`none`) - in particular, not a silent 0 or any other number. -/
theorem C9_item_total_correlations (df : DF) (i : ℕ)
    (hval : validate_data df 2 2 = .ok ()) (hrect : df.isRect = true)
    (hi : i < df.nCols) :
    (itemTotalCorrelations df).getD i none =
        pearsonCorr (df.cols.getD i ⟨true, []⟩).vals (specOtherSums df i) ∧
      (sampleVar (df.cols.getD i ⟨true, []⟩).vals = 0 →
        (itemTotalCorrelations df).getD i none = none) := by
  have h1 : (itemTotalCorrelations df).getD i none =
      pearsonCorr (df.cols.getD i ⟨true, []⟩).vals (specOtherSums df i) := by
    rw [itemTotal_getD df i hi, seriesSub_totals df i hrect hi]
  exact ⟨h1, fun hz => by rw [h1, pearsonCorr_none_of_left _ _ hz]⟩

/-- C9 witness: the valid table whose first column is constant - its entry
is NaN (`none`), and the Pearson form holds for it. -/
theorem C9_witness :
    (itemTotalCorrelations constColDF).getD 0 none =
        pearsonCorr (constColDF.cols.getD 0 ⟨true, []⟩).vals
          (specOtherSums constColDF 0) ∧
      (sampleVar (constColDF.cols.getD 0 ⟨true, []⟩).vals = 0 →
        (itemTotalCorrelations constColDF).getD 0 none = none) :=
  C9_item_total_correlations constColDF 0 (by rfl) (by rfl) (by decide)

theorem sampleVar_nonneg (xs : List ℚ) : 0 ≤ sampleVar xs := by
  cases xs with
  | nil => simp [sampleVar, listMean]
  | cons x t =>
    unfold sampleVar
    have hlen : (((x :: t).length : ℚ)) - 1 = (t.length : ℚ) := by
      push_cast [List.length_cons]
      ring
    rw [hlen]
    refine div_nonneg (List.sum_nonneg ?_) (by positivity)
    intro a ha
    obtain ⟨b, -, rfl⟩ := List.mem_map.mp ha
    exact sq_nonneg _

theorem zip_self_map_mul (xs : List ℚ) (a : ℚ) :
    ((xs.zip xs).map (fun p => (p.1 - a) * (p.2 - a))).sum =
      (xs.map (fun x => (x - a) ^ 2)).sum := by
  induction xs with
  | nil => simp
  | cons x t ih =>
    simp [ih]
    ring

theorem sampleCov_self (xs : List ℚ) : sampleCov xs xs = sampleVar xs := by
  unfold sampleCov sampleVar
  rw [zip_self_map_mul]

theorem zip_map_mul_comm (xs : List ℚ) (a b : ℚ) :
    ∀ ys : List ℚ,
      ((xs.zip ys).map (fun p => (p.1 - a) * (p.2 - b))).sum =
        ((ys.zip xs).map (fun p => (p.1 - b) * (p.2 - a))).sum := by
  induction xs with
  | nil => intro ys; cases ys <;> simp
  | cons x t ih =>
    intro ys
    cases ys with
    | nil => simp
    | cons y u =>
      simp [ih u]
      ring

theorem sampleCov_comm (xs ys : List ℚ) (h : xs.length = ys.length) :
    sampleCov xs ys = sampleCov ys xs := by
  unfold sampleCov
  rw [h, zip_map_mul_comm]

theorem pearsonCorr_comm (xs ys : List ℚ) (h : xs.length = ys.length) :
    pearsonCorr xs ys = pearsonCorr ys xs := by
  unfold pearsonCorr
  rw [mul_comm (sampleVar xs) (sampleVar ys), sampleCov_comm xs ys h,
    mul_comm ((sampleVar xs : ℚ) : ℝ) ((sampleVar ys : ℚ) : ℝ)]

theorem pearsonCorr_self (xs : List ℚ) (h : sampleVar xs ≠ 0) :
    pearsonCorr xs xs = some 1 := by
  unfold pearsonCorr
  rw [if_neg (by simpa [mul_self_eq_zero] using h), sampleCov_self]
  have h0 : (0 : ℝ) ≤ (sampleVar xs : ℝ) := by
    exact_mod_cast sampleVar_nonneg xs
  have hsq : Real.sqrt (((sampleVar xs : ℚ) : ℝ) * ((sampleVar xs : ℚ) : ℝ)) =
      ((sampleVar xs : ℚ) : ℝ) :=
    Real.sqrt_mul_self h0
  rw [hsq, div_self (by exact_mod_cast h)]

theorem interItem_getD (df : DF) (i j : ℕ) (hi : i < df.nCols) (hj : j < df.nCols) :
    ((interItemCorrelations df).getD i []).getD j none =
      pearsonCorr (df.cols.getD i ⟨true, []⟩).vals
        (df.cols.getD j ⟨true, []⟩).vals := by
  have hci : i < df.cols.length := hi
  have hcj : j < df.cols.length := hj
  have hlen : i < (interItemCorrelations df).length := by
    simpa [interItemCorrelations] using hci
  rw [List.getD_eq_getElem _ _ hlen]
  have hrow : (interItemCorrelations df)[i] =
      df.cols.map (fun c2 => pearsonCorr df.cols[i].vals c2.vals) := by
    simp [interItemCorrelations]
  rw [hrow]
  have hlen2 : j < (df.cols.map (fun c2 => pearsonCorr df.cols[i].vals c2.vals)).length := by
    simpa using hcj
  rw [List.getD_eq_getElem _ _ hlen2, List.getD_eq_getElem _ _ hci,
    List.getD_eq_getElem _ _ hcj]
  simp

/-- C10 counterexample: a table with a constant (zero-variance) column
passes validation - the zero-variance condition is only a warning - yet the
diagonal entry of `df.corr()` for that column is NaN (`none`), not 1.0:
pandas computes 0/0 there and does not special-case the diagonal. -/
theorem C10_counterexample :
    validate_data constColDF 2 2 = .ok () ∧
      ((interItemCorrelations constColDF).getD 0 []).getD 0 none = none := by
  refine ⟨by rfl, ?_⟩
  rw [interItem_getD constColDF 0 0 (by decide) (by decide)]
  apply pearsonCorr_none_of_left
  norm_num [sampleVar, listMean, constColDF]

/-- C10 amended: for every valid rectangular table the inter-item
correlation matrix is symmetric - unconditionally, zero-variance columns
included, since both mirror entries are then the same NaN - and the
diagonal entry of an item is 1.0 exactly when its column has nonzero
variance, and NaN (`none`) when the column is constant (pandas computes 0/0
there and does not special-case the diagonal). -/
theorem C10_inter_item_matrix (df : DF) (i j : ℕ)
    (hval : validate_data df 2 2 = .ok ()) (hrect : df.isRect = true)
    (hi : i < df.nCols) (hj : j < df.nCols) :
    ((interItemCorrelations df).getD i []).getD j none =
        ((interItemCorrelations df).getD j []).getD i none ∧
      (sampleVar (df.cols.getD i ⟨true, []⟩).vals ≠ 0 →
        ((interItemCorrelations df).getD i []).getD i none = some 1) ∧
      (sampleVar (df.cols.getD i ⟨true, []⟩).vals = 0 →
        ((interItemCorrelations df).getD i []).getD i none = none) := by
  refine ⟨?_, fun hv => ?_, fun hz => ?_⟩
  · rw [interItem_getD df i j hi hj, interItem_getD df j i hj hi]
    exact pearsonCorr_comm _ _
      (by rw [isRect_vals_length df hrect i hi, isRect_vals_length df hrect j hj])
  · rw [interItem_getD df i i hi hi]
    exact pearsonCorr_self _ hv
  · rw [interItem_getD df i i hi hi]
    exact pearsonCorr_none_of_left _ _ hz

/-- C10 witness: the valid table whose first column is constant, at items
0 and 1 - the symmetry conjunct relates two NaN entries and the diagonal
falls in the zero-variance case. -/
theorem C10_witness :
    ((interItemCorrelations constColDF).getD 0 []).getD 1 none =
        ((interItemCorrelations constColDF).getD 1 []).getD 0 none ∧
      (sampleVar (constColDF.cols.getD 0 ⟨true, []⟩).vals ≠ 0 →
        ((interItemCorrelations constColDF).getD 0 []).getD 0 none = some 1) ∧
      (sampleVar (constColDF.cols.getD 0 ⟨true, []⟩).vals = 0 →
        ((interItemCorrelations constColDF).getD 0 []).getD 0 none = none) :=
  C10_inter_item_matrix constColDF 0 1 (by rfl) (by rfl) (by decide) (by decide)

/-! ### The confidence interval (claim C7) -/

/-- Modelled from the spec (section 7): the error taxonomy the spec
prescribes.  None of these exception classes exist in the code, whose only
classes are `TypeError` and `ValueError` (see `Err`). -/
inductive SpecErr where
  | shapeErr
  | typeErr
  | insufficientItems
  | degenerateData
  | invalidParameter
deriving DecidableEq

/-- Modelled from the spec (section 4): the Fisher-transform interval, with
z = atanh(alpha), se = sqrt(2×(1−alpha²)/((n_items−1)×(n_subjects−2))) and
z_crit the inverse normal CDF at (1+confidence)/2. -/
noncomputable def specCIpair (lib : StatLib) (alpha : ℝ) (nItems nSubjects : ℕ)
    (confidence : ℝ) : ℝ × ℝ :=
  let z := artanh alpha
  let se := Real.sqrt (2 * (1 - alpha ^ 2) /
    (((nItems : ℝ) - 1) * ((nSubjects : ℝ) - 2)))
  let zCrit := lib.ppf ((1 + confidence) / 2)
  (Real.tanh (z - zCrit * se), Real.tanh (z + zCrit * se))

open Classical in
/-- Modelled from the spec: `confidence_interval` as the spec prescribes it,
requiring n_subjects > 2 and |alpha| < 1 strictly and failing with
`InvalidParameterError` otherwise. -/
noncomputable def confidence_interval_spec (lib : StatLib) (alpha : ℝ)
    (nItems nSubjects : ℕ) (confidence : ℝ) : Except SpecErr (ℝ × ℝ) :=
  if nSubjects ≤ 2 ∨ 1 ≤ |alpha| then .error .invalidParameter
  else .ok (specCIpair lib alpha nItems nSubjects confidence)

/-- C7 counterexample: at alpha = 1, n_subjects = 6 (which the claim says
must fail with `InvalidParameterError`, since |alpha| >= 1) the code's
`calculate_confidence_interval` returns a pair whatever the runtime type of
its operands - the denominator (3-1)*(6-2) is nonzero, so even the
Python-scalar division succeeds, and np.arctanh(1) only warns and yields
inf - while the function the spec prescribes fails.  The code performs no
parameter check and defines no `InvalidParameterError` anywhere. -/
theorem C7_counterexample :
    exceptIsOk (calculate_confidence_interval lib0 false 1 3 6 (95 / 100)) = true ∧
      exceptIsOk (calculate_confidence_interval lib0 true 1 3 6 (95 / 100)) = true ∧
      confidence_interval_spec lib0 1 3 6 (95 / 100) =
        .error SpecErr.invalidParameter := by
  refine ⟨by rfl, by rfl, ?_⟩
  unfold confidence_interval_spec
  rw [if_pos (Or.inr (by norm_num))]

/-- C7 amended: `calculate_confidence_interval` performs no parameter
validation and never raises the `InvalidParameterError` the claim names (no
such class exists in the code).  With a numpy float64 alpha - as in the one
internal call - it never raises at all; with plain Python scalars it raises
`ZeroDivisionError` exactly when the line-72 denominator
(n_items-1)*(n_subjects-2) is zero, a different error class and a different
condition than the claim (n_subjects = 2 or n_items = 1, rather than
n_subjects <= 2 or |alpha| >= 1).  Whenever it returns, the pair is the
claimed Fisher-transform formula, and the spec-prescribed checked function
agrees with it on the spec precondition region. -/
theorem C7_amended_ci_no_parameter_check (lib : StatLib) (npFloat : Bool)
    (alpha : ℝ) (nItems nSubjects : ℕ) (confidence : ℝ) :
    (calculate_confidence_interval lib true alpha nItems nSubjects confidence =
        .ok (specCIpair lib alpha nItems nSubjects confidence)) ∧
      (((nItems : ℤ) - 1) * ((nSubjects : ℤ) - 2) = 0 →
        calculate_confidence_interval lib false alpha nItems nSubjects confidence =
          .error (.zeroDivisionError "float division by zero")) ∧
      (((nItems : ℤ) - 1) * ((nSubjects : ℤ) - 2) ≠ 0 →
        calculate_confidence_interval lib npFloat alpha nItems nSubjects confidence =
          .ok (specCIpair lib alpha nItems nSubjects confidence)) ∧
      (2 < nSubjects → |alpha| < 1 →
        confidence_interval_spec lib alpha nItems nSubjects confidence =
          .ok (specCIpair lib alpha nItems nSubjects confidence)) := by
  refine ⟨rfl, fun h0 => ?_, fun h0 => ?_, fun h1 h2 => ?_⟩
  · have hb : (((nItems : ℤ) - 1) * ((nSubjects : ℤ) - 2) == 0) = true :=
      beq_iff_eq.mpr h0
    unfold calculate_confidence_interval
    rw [hb]
  · have hb : (((nItems : ℤ) - 1) * ((nSubjects : ℤ) - 2) == 0) = false := by
      simpa using h0
    unfold calculate_confidence_interval
    rw [hb]
    cases npFloat <;> rfl
  · unfold confidence_interval_spec
    rw [if_neg (by push_neg; exact ⟨by omega, h2⟩)]

end Cronbach
